import Mathlib

/-!
Shallow embedding of `storage/innobase/include/sux_lock.h` (MariaDB):
the `sux_lock` template, a recursive S/U/X rw-lock layered on top of an
external single-mode lock (`srw_lock_low`).  We model the
`sux_lock<srw_lock_low>` specialization, whose member functions are the
ones the specification describes.

The mutable members of a `sux_lock` are `writer` (an `os_thread_id_t`,
`0` = no owner), `recursive` (a `uint32_t` packing the X recursion depth
in bits 0..15 and the U recursion depth in bits 16..31) and `waits`
(a `uint32_t` counter of blocking waits).  Thread identifiers are opaque
comparable values; we model them as natural numbers, with `0` reserved
for "no owner" and the all-ones pattern `~0UL` as the ` FOR_IO` sentinel.

The underlying lock `srw_lock_low` is an external collaborator (its
implementation is not part of this repository); per the specification it
offers blocking and non-blocking acquire and release for the read, update
and write verbs plus an update-to-write upgrade.  We embed it as a record
of its current hold mode together with one counter per verb counting the
successful invocations made by the `sux_lock` code, and we pass the
outcome of each external call (whether a blocking acquire had to wait,
whether a try-acquire succeeded) as an explicit oracle parameter of the
`sux_lock` operation performing the call.  Debug assertions (`ut_ad`)
are not part of the release-build state transformation; they appear as
hypotheses of the theorems.
-/

namespace Sux

/-- `2^32`, the modulus of `uint32_t` arithmetic on `recursive` and `waits`. -/
def U32 : Nat := 2 ^ 32

/-- The multiplier in `recursive` for X locks (`RECURSIVE_X= 1U`). -/
def RECURSIVE_X : Nat := 1

/-- The multiplier in `recursive` for U locks (`RECURSIVE_U= 1U << 16`). -/
def RECURSIVE_U : Nat := 2 ^ 16

/-- The maximum allowed level of recursion (`RECURSIVE_MAX= RECURSIVE_U - 1`). -/
def RECURSIVE_MAX : Nat := RECURSIVE_U - 1

/-- Special `writer != 0` value indicating that the lock is non-recursive and
will be released by an I/O thread: `os_thread_id_t(~0UL)`, the all-ones
64-bit pattern. -/
def FOR_IO : Nat := 2 ^ 64 - 1

theorem U32_eq : U32 = 4294967296 := by norm_num [U32]

theorem RECURSIVE_U_eq : RECURSIVE_U = 65536 := by norm_num [RECURSIVE_U]

theorem RECURSIVE_MAX_eq : RECURSIVE_MAX = 65535 := by
  norm_num [RECURSIVE_MAX, RECURSIVE_U]

/-- Modelled from the spec: the hold mode of the external underlying lock
(`srw_lock_low`, declared in `srw_lock.h`, which is not part of this
repository), as seen along a single thread's call sequence. -/
inductive SrwHold : Type
| free : SrwHold
| rd : SrwHold
| u : SrwHold
| wr : SrwHold
deriving DecidableEq

/-- Modelled from the spec: the external underlying single-mode lock.
We record its hold mode and count every successful invocation of each of
its verbs by the `sux_lock` layer, so that "the underlying exclusive lock
is acquired exactly once" is expressible as a counter value. -/
structure Srw : Type where
  hold : SrwHold
  rdLocks : Nat
  rdUnlocks : Nat
  uLocks : Nat
  uUnlocks : Nat
  wrLocks : Nat
  wrUnlocks : Nat
  upgrades : Nat
deriving DecidableEq

/-- Modelled from the spec: a successful shared acquire of the underlying lock
(blocking `rd_lock` or a successful `rd_lock_try`). -/
def Srw.rd_lock (l : Srw) : Srw :=
  { l with hold := SrwHold.rd, rdLocks := l.rdLocks + 1 }

/-- Modelled from the spec: `rd_unlock` on the underlying lock. -/
def Srw.rd_unlock (l : Srw) : Srw :=
  { l with hold := SrwHold.free, rdUnlocks := l.rdUnlocks + 1 }

/-- Modelled from the spec: a successful update acquire of the underlying lock
(blocking `u_lock` or a successful `u_lock_try`). -/
def Srw.u_lock (l : Srw) : Srw :=
  { l with hold := SrwHold.u, uLocks := l.uLocks + 1 }

/-- Modelled from the spec: `u_unlock` on the underlying lock. -/
def Srw.u_unlock (l : Srw) : Srw :=
  { l with hold := SrwHold.free, uUnlocks := l.uUnlocks + 1 }

/-- Modelled from the spec: a successful exclusive acquire of the underlying
lock (blocking `wr_lock` or a successful `wr_lock_try`). -/
def Srw.wr_lock (l : Srw) : Srw :=
  { l with hold := SrwHold.wr, wrLocks := l.wrLocks + 1 }

/-- Modelled from the spec: `wr_unlock` on the underlying lock. -/
def Srw.wr_unlock (l : Srw) : Srw :=
  { l with hold := SrwHold.free, wrUnlocks := l.wrUnlocks + 1 }

/-- Modelled from the spec: the in-place update-to-write upgrade
(`u_wr_upgrade`) of the underlying lock. -/
def Srw.u_wr_upgrade (l : Srw) : Srw :=
  { l with hold := SrwHold.wr, upgrades := l.upgrades + 1 }

/-- The all-free underlying lock with zeroed invocation counters. -/
def Srw.init : Srw :=
  { hold := SrwHold.free, rdLocks := 0, rdUnlocks := 0, uLocks := 0,
    uUnlocks := 0, wrLocks := 0, wrUnlocks := 0, upgrades := 0 }

/-- The state of a `sux_lock<srw_lock_low>`: the underlying lock `lock`,
the owner `writer` of the U or X lock (0 if none), the packed recursion
counter `recursive` and the blocking-wait counter `waits`. -/
structure SuxLock : Type where
  lock : Srw
  writer : Nat
  recursive : Nat
  waits : Nat
deriving DecidableEq

/-- The all-zero ("Free") state a `sux_lock` is constructed in. -/
def SuxLock.init : SuxLock :=
  { lock := Srw.init, writer := 0, recursive := 0, waits := 0 }

/-- The X recursion depth `(recursive / RECURSIVE_X) & RECURSIVE_MAX`
read out of a packed `recursive` value (the bitmask with the all-ones
value `RECURSIVE_MAX` is reduction modulo `RECURSIVE_MAX + 1 = 2^16`;
see `land_RECURSIVE_MAX`). -/
def x_depth (recursive : Nat) : Nat :=
  (recursive / RECURSIVE_X) % (RECURSIVE_MAX + 1)

/-- The U recursion depth `(recursive / RECURSIVE_U) & RECURSIVE_MAX`
read out of a packed `recursive` value. -/
def u_depth (recursive : Nat) : Nat :=
  (recursive / RECURSIVE_U) % (RECURSIVE_MAX + 1)

/-- `n & RECURSIVE_MAX` is `n % (RECURSIVE_MAX + 1)`: masking with the
all-ones constant `2^16 - 1` is reduction modulo `2^16`, which justifies
writing the source's bitmasks as `%` in `x_depth` and `u_depth`. -/
theorem land_RECURSIVE_MAX (n : Nat) :
    Nat.land n RECURSIVE_MAX = n % (RECURSIVE_MAX + 1) := by
  have h : RECURSIVE_MAX = 2 ^ 16 - 1 := by norm_num [RECURSIVE_MAX, RECURSIVE_U]
  have h1 : RECURSIVE_MAX + 1 = 2 ^ 16 := by norm_num [RECURSIVE_MAX, RECURSIVE_U]
  rw [h1, h]
  show HAnd.hAnd n (2 ^ 16 - 1) = n % 2 ^ 16
  apply Nat.eq_of_testBit_eq
  intro i
  rw [Nat.testBit_and, Nat.testBit_mod_two_pow, Nat.testBit_two_pow_sub_one]
  exact Bool.and_comm _ _

/-- `sux_lock::writer_recurse<allow_readers>()` (release-build effect):
`recursive += allow_readers ? RECURSIVE_U : RECURSIVE_X` in `uint32_t`
arithmetic.  The caller must already be the recorded `writer`, the
relevant depth must be below `RECURSIVE_MAX`, and (for U recursion)
`recursive` must be nonzero, respectively (for X recursion) the X depth
must be nonzero; these `ut_ad` preconditions appear as theorem
hypotheses. -/
def SuxLock.writer_recurse (allow_readers : Bool) (s : SuxLock) : SuxLock :=
  { s with recursive :=
      (s.recursive + (if allow_readers then RECURSIVE_U else RECURSIVE_X)) % U32 }

/-- `sux_lock<srw_lock_low>::s_lock()`: acquire a shared lock.  `waited` is
the outcome reported by the underlying blocking call (`lock.rd_lock<true>()`
returns whether the lock was acquired without waiting, so the source's
`if (!lock.rd_lock<true>())` branch is taken exactly when `waited`). -/
def SuxLock.s_lock (waited : Bool) (s : SuxLock) : SuxLock :=
  let s1 : SuxLock := { s with lock := s.lock.rd_lock }
  if waited then { s1 with waits := (s1.waits + 1) % U32 } else s1

/-- `sux_lock<srw_lock_low>::u_lock()`: acquire an update lock by thread
`id`.  If `id` is the recorded writer this is `writer_recurse<true>()`;
otherwise the underlying `lock.u_lock()` is invoked (with `waited` the
report that it had to wait), then `recursive= RECURSIVE_U` and
`set_first_owner(id)`. -/
def SuxLock.u_lock (id : Nat) (waited : Bool) (s : SuxLock) : SuxLock :=
  if s.writer = id then s.writer_recurse true
  else
    let s1 : SuxLock := { s with lock := s.lock.u_lock }
    let s2 : SuxLock :=
      if waited then { s1 with waits := (s1.waits + 1) % U32 } else s1
    { s2 with recursive := RECURSIVE_U, writer := id }

/-- `sux_lock<srw_lock_low>::x_lock(bool for_io)`: acquire an exclusive
lock by thread `id`.  If `id` is the recorded writer this is
`writer_recurse<false>()` (the source debug-asserts `!for_io` there);
otherwise the underlying `lock.wr_lock<true>()` is invoked, then
`recursive= RECURSIVE_X` and `set_first_owner(for_io ? FOR_IO : id)`. -/
def SuxLock.x_lock (id : Nat) ( for_io : Bool) (waited : Bool) (s : SuxLock) :
    SuxLock :=
  if s.writer = id then s.writer_recurse false
  else
    let s1 : SuxLock := { s with lock := s.lock.wr_lock }
    let s2 : SuxLock :=
      if waited then { s1 with waits := (s1.waits + 1) % U32 } else s1
    { s2 with recursive := RECURSIVE_X,
              writer := if for_io then FOR_IO else id }

/-- `sux_lock::x_lock_recursive()`: `writer_recurse<false>()`. -/
def SuxLock.x_lock_recursive (s : SuxLock) : SuxLock :=
  s.writer_recurse false

/-- `sux_lock<srw_lock_low>::u_x_upgrade()`: upgrade an update lock.
Invokes the underlying `lock.u_wr_upgrade()` (with `waited` its
had-to-wait report), then `recursive /= RECURSIVE_U`.  The source
debug-asserts `have_u_not_x()` on entry. -/
def SuxLock.u_x_upgrade (waited : Bool) (s : SuxLock) : SuxLock :=
  let s1 : SuxLock := { s with lock := s.lock.u_wr_upgrade }
  let s2 : SuxLock :=
    if waited then { s1 with waits := (s1.waits + 1) % U32 } else s1
  { s2 with recursive := s2.recursive / RECURSIVE_U }

/-- `sux_lock::x_lock_upgraded()`: acquire an exclusive lock or upgrade an
update lock, returning whether U locks were upgraded to X.  The test
`recursive & RECURSIVE_MAX` of the source is `recursive % (RECURSIVE_MAX+1)`
(see `land_RECURSIVE_MAX`); the else-branch discards the return value of
`lock.wr_lock<true>()`, so no `waits` oracle is involved. -/
def SuxLock.x_lock_upgraded (id : Nat) (s : SuxLock) : Bool × SuxLock :=
  if s.writer = id then
    if s.recursive % (RECURSIVE_MAX + 1) ≠ 0 then
      (false, s.writer_recurse false)
    else
      (true, { s with lock := s.lock.u_wr_upgrade,
                      recursive := s.recursive / RECURSIVE_U })
  else
    (false, { s with lock := s.lock.wr_lock,
                     recursive := RECURSIVE_X, writer := id })

/-- `sux_lock::s_lock_try()`: `lock.rd_lock_try()` with outcome `ok`;
the shared hold is taken exactly when the underlying try succeeds. -/
def SuxLock.s_lock_try (ok : Bool) (s : SuxLock) : Bool × SuxLock :=
  if ok then (true, { s with lock := s.lock.rd_lock }) else (false, s)

/-- `sux_lock<srw_lock_low>::u_lock_try(bool for_io)`: if `id` is the
recorded writer, refuse when `for_io` and otherwise `writer_recurse<true>()`;
else attempt `lock.u_lock_try()` (outcome `ok`) and on success set
`recursive= RECURSIVE_U` and `set_first_owner(for_io ? FOR_IO : id)`. -/
def SuxLock.u_lock_try (id : Nat) ( for_io : Bool) (ok : Bool) (s : SuxLock) :
    Bool × SuxLock :=
  if s.writer = id then
    if for_io then (false, s)
    else (true, s.writer_recurse true)
  else if ok then
    (true, { s with lock := s.lock.u_lock,
                    recursive := RECURSIVE_U,
                    writer := if for_io then FOR_IO else id })
  else (false, s)

/-- `sux_lock<srw_lock_low>::x_lock_try()`: if `id` is the recorded writer,
`writer_recurse<false>()`; else attempt `lock.wr_lock_try()` (outcome `ok`)
and on success set `recursive= RECURSIVE_X` and `set_first_owner(id)`. -/
def SuxLock.x_lock_try (id : Nat) (ok : Bool) (s : SuxLock) : Bool × SuxLock :=
  if s.writer = id then (true, s.writer_recurse false)
  else if ok then
    (true, { s with lock := s.lock.wr_lock,
                    recursive := RECURSIVE_X, writer := id })
  else (false, s)

/-- `sux_lock::s_unlock()`: release a shared lock (`lock.rd_unlock()`). -/
def SuxLock.s_unlock (s : SuxLock) : SuxLock :=
  { s with lock := s.lock.rd_unlock }

/-- `sux_lock::u_or_x_unlock(allow_readers, claim_ownership)` (release-build
effect): `recursive -= allow_readers ? RECURSIVE_U : RECURSIVE_X` in
`uint32_t` arithmetic (written as addition of the modular complement); when
the result is zero, `set_new_owner(0)` and the matching underlying release
(`lock.u_unlock()` for U, `lock.wr_unlock()` for X).  The
`claim_ownership` flag is consulted only by the `ut_ad` ownership
assertion (`u_or_x_unlock_pre`). -/
def SuxLock.u_or_x_unlock (allow_readers : Bool) (claim_ownership : Bool)
    (s : SuxLock) : SuxLock :=
  let step : Nat := if allow_readers then RECURSIVE_U else RECURSIVE_X
  let r : Nat := (s.recursive + (U32 - step)) % U32
  if r = 0 then
    { s with recursive := r, writer := 0,
             lock := if allow_readers then s.lock.u_unlock
                     else s.lock.wr_unlock }
  else { s with recursive := r }

/-- The `ut_ad` preconditions of `u_or_x_unlock` when called by thread `id`:
the caller is the recorded writer, or the writer is the ` FOR_IO` sentinel,
`claim_ownership` was passed and exactly one full acquisition is held; and
the depth being released is nonzero. -/
def SuxLock.u_or_x_unlock_pre (id : Nat) (allow_readers : Bool)
    (claim_ownership : Bool) (s : SuxLock) : Prop :=
  (s.writer = id ∨
    (s.writer = FOR_IO ∧ claim_ownership = true ∧
      s.recursive = (if allow_readers then RECURSIVE_U else RECURSIVE_X))) ∧
  0 < (if allow_readers then u_depth s.recursive else x_depth s.recursive)

/-- `sux_lock::u_unlock(claim_ownership)`: `u_or_x_unlock(true, ...)`. -/
def SuxLock.u_unlock (claim_ownership : Bool) (s : SuxLock) : SuxLock :=
  s.u_or_x_unlock true claim_ownership

/-- `sux_lock::x_unlock(claim_ownership)`: `u_or_x_unlock(false, ...)`. -/
def SuxLock.x_unlock (claim_ownership : Bool) (s : SuxLock) : SuxLock :=
  s.u_or_x_unlock false claim_ownership

/-- `sux_lock::have_u_or_x()` evaluated by thread `id`: whether `id` is the
recorded `writer` (the source additionally debug-asserts `recursive != 0`
when this holds). -/
def SuxLock.have_u_or_x (id : Nat) (s : SuxLock) : Bool :=
  id == s.writer

/-- `sux_lock::have_u_not_x()`:
`have_u_or_x() && !((recursive / RECURSIVE_X) & RECURSIVE_MAX)`. -/
def SuxLock.have_u_not_x (id : Nat) (s : SuxLock) : Bool :=
  s.have_u_or_x id && ((s.recursive / RECURSIVE_X) % (RECURSIVE_MAX + 1) == 0)

/-- `sux_lock::have_x()`:
`have_u_or_x() && ((recursive / RECURSIVE_X) & RECURSIVE_MAX)`. -/
def SuxLock.have_x (id : Nat) (s : SuxLock) : Bool :=
  s.have_u_or_x id && !((s.recursive / RECURSIVE_X) % (RECURSIVE_MAX + 1) == 0)

/-- `sux_lock::claim_ownership()` by thread `id`: `set_new_owner(id)`. -/
def SuxLock.claim_ownership (id : Nat) (s : SuxLock) : SuxLock :=
  { s with writer := id }

/-- `k`-fold sequential application of an indexed state transformer:
`iterOp f k s` performs `f 0`, then `f 1`, ..., then `f (k-1)` on `s`
(the index lets each call take its own oracle value). -/
def iterOp (f : Nat → SuxLock → SuxLock) : Nat → SuxLock → SuxLock
| 0, s => s
| n + 1, s => f n (iterOp f n s)

/-- The packed-counter/owner invariant of the data model:
`recursive > 0` iff `writer != 0`. -/
def SuxLock.inv (s : SuxLock) : Prop := 0 < s.recursive ↔ s.writer ≠ 0

/-- The `ut_ad(!for_io)` assertion on the recursive branch of
`sux_lock<srw_lock_low>::x_lock`: an owner may not recurse `for_io`. -/
def SuxLock.x_lock_pre (id : Nat) ( for_io : Bool) (s : SuxLock) : Prop :=
  s.writer = id → for_io = false

theorem RECURSIVE_X_eq : RECURSIVE_X = 1 := rfl

/-! ### Field-effect lemmas for the individual operations -/

theorem writer_recurse_rec (a : Bool) (s : SuxLock) :
    (s.writer_recurse a).recursive =
      (s.recursive + (if a then RECURSIVE_U else RECURSIVE_X)) % U32 := rfl

theorem writer_recurse_wr (a : Bool) (s : SuxLock) :
    (s.writer_recurse a).writer = s.writer := rfl

theorem writer_recurse_lk (a : Bool) (s : SuxLock) :
    (s.writer_recurse a).lock = s.lock := rfl

theorem writer_recurse_wt (a : Bool) (s : SuxLock) :
    (s.writer_recurse a).waits = s.waits := rfl

theorem step_true : (if true then RECURSIVE_U else RECURSIVE_X) =
    RECURSIVE_U := rfl

theorem step_false : (if false then RECURSIVE_U else RECURSIVE_X) =
    RECURSIVE_X := rfl

theorem FOR_IO_ne_zero : FOR_IO ≠ 0 := by decide

theorem writer_recurse_rec_true (s : SuxLock) :
    (s.writer_recurse true).recursive = (s.recursive + RECURSIVE_U) % U32 :=
  rfl

theorem writer_recurse_rec_false (s : SuxLock) :
    (s.writer_recurse false).recursive = (s.recursive + RECURSIVE_X) % U32 :=
  rfl

theorem writer_recurse_true_eq (s : SuxLock) :
    s.writer_recurse true =
      { s with recursive := (s.recursive + RECURSIVE_U) % U32 } := rfl

theorem writer_recurse_false_eq (s : SuxLock) :
    s.writer_recurse false =
      { s with recursive := (s.recursive + RECURSIVE_X) % U32 } := rfl

theorem s_lock_rec (w : Bool) (s : SuxLock) :
    (s.s_lock w).recursive = s.recursive := by
  cases w <;> rfl

theorem s_lock_wr (w : Bool) (s : SuxLock) :
    (s.s_lock w).writer = s.writer := by
  cases w <;> rfl

theorem s_lock_lk (w : Bool) (s : SuxLock) :
    (s.s_lock w).lock = s.lock.rd_lock := by
  cases w <;> rfl

theorem s_lock_wt (w : Bool) (s : SuxLock) :
    (s.s_lock w).waits = if w then (s.waits + 1) % U32 else s.waits := by
  cases w <;> rfl

theorem u_lock_rec (id : Nat) (w : Bool) (s : SuxLock) :
    (s.u_lock id w).recursive =
      if s.writer = id then (s.recursive + RECURSIVE_U) % U32
      else RECURSIVE_U := by
  unfold SuxLock.u_lock SuxLock.writer_recurse
  split <;> cases w <;> rfl

theorem u_lock_wr (id : Nat) (w : Bool) (s : SuxLock) :
    (s.u_lock id w).writer = if s.writer = id then s.writer else id := by
  unfold SuxLock.u_lock SuxLock.writer_recurse
  split <;> cases w <;> rfl

theorem u_lock_lk (id : Nat) (w : Bool) (s : SuxLock) :
    (s.u_lock id w).lock =
      if s.writer = id then s.lock else s.lock.u_lock := by
  unfold SuxLock.u_lock SuxLock.writer_recurse
  split <;> cases w <;> rfl

theorem u_lock_wt (id : Nat) (w : Bool) (s : SuxLock) :
    (s.u_lock id w).waits =
      if s.writer = id then s.waits
      else if w then (s.waits + 1) % U32 else s.waits := by
  unfold SuxLock.u_lock SuxLock.writer_recurse
  split <;> cases w <;> rfl

theorem x_lock_rec (id : Nat) (f w : Bool) (s : SuxLock) :
    (s.x_lock id f w).recursive =
      if s.writer = id then (s.recursive + RECURSIVE_X) % U32
      else RECURSIVE_X := by
  unfold SuxLock.x_lock SuxLock.writer_recurse
  split <;> cases w <;> rfl

theorem x_lock_wr (id : Nat) (f w : Bool) (s : SuxLock) :
    (s.x_lock id f w).writer =
      if s.writer = id then s.writer
      else if f then FOR_IO else id := by
  unfold SuxLock.x_lock SuxLock.writer_recurse
  split <;> cases w <;> rfl

theorem x_lock_lk (id : Nat) (f w : Bool) (s : SuxLock) :
    (s.x_lock id f w).lock =
      if s.writer = id then s.lock else s.lock.wr_lock := by
  unfold SuxLock.x_lock SuxLock.writer_recurse
  split <;> cases w <;> rfl

theorem x_lock_wt (id : Nat) (f w : Bool) (s : SuxLock) :
    (s.x_lock id f w).waits =
      if s.writer = id then s.waits
      else if w then (s.waits + 1) % U32 else s.waits := by
  unfold SuxLock.x_lock SuxLock.writer_recurse
  split <;> cases w <;> rfl

theorem u_x_upgrade_rec (w : Bool) (s : SuxLock) :
    (s.u_x_upgrade w).recursive = s.recursive / RECURSIVE_U := by
  cases w <;> rfl

theorem u_x_upgrade_wr (w : Bool) (s : SuxLock) :
    (s.u_x_upgrade w).writer = s.writer := by
  cases w <;> rfl

theorem u_x_upgrade_lk (w : Bool) (s : SuxLock) :
    (s.u_x_upgrade w).lock = s.lock.u_wr_upgrade := by
  cases w <;> rfl

theorem u_x_upgrade_wt (w : Bool) (s : SuxLock) :
    (s.u_x_upgrade w).waits = if w then (s.waits + 1) % U32 else s.waits := by
  cases w <;> rfl

theorem u_or_x_unlock_eq (a c : Bool) (s : SuxLock) (hr : s.recursive < U32)
    (hs : (if a then RECURSIVE_U else RECURSIVE_X) ≤ s.recursive) :
    s.u_or_x_unlock a c =
      if s.recursive = (if a then RECURSIVE_U else RECURSIVE_X) then
        { s with recursive := 0, writer := 0,
                 lock := if a then s.lock.u_unlock else s.lock.wr_unlock }
      else { s with recursive :=
                s.recursive - (if a then RECURSIVE_U else RECURSIVE_X) } := by
  unfold SuxLock.u_or_x_unlock
  have hstep : (if a then RECURSIVE_U else RECURSIVE_X) ≤ U32 := by
    cases a <;> simp [RECURSIVE_U_eq, RECURSIVE_X_eq, U32_eq]
  have hmod : (s.recursive + (U32 - (if a then RECURSIVE_U else RECURSIVE_X)))
      % U32 = s.recursive - (if a then RECURSIVE_U else RECURSIVE_X) := by
    simp only [U32_eq] at *
    omega
  simp only [hmod]
  by_cases hz : s.recursive = (if a then RECURSIVE_U else RECURSIVE_X)
  · simp [hz]
  · have hnz : ¬(s.recursive - (if a then RECURSIVE_U else RECURSIVE_X) = 0) := by
      omega
    simp [hz, hnz]

theorem x_unlock_eq (c : Bool) (s : SuxLock) (hr : s.recursive < U32)
    (hs : RECURSIVE_X ≤ s.recursive) :
    s.u_or_x_unlock false c =
      if s.recursive = RECURSIVE_X then
        { s with recursive := 0, writer := 0, lock := s.lock.wr_unlock }
      else { s with recursive := s.recursive - RECURSIVE_X } :=
  u_or_x_unlock_eq false c s hr hs

theorem u_or_x_unlock_wt (a c : Bool) (s : SuxLock) :
    (s.u_or_x_unlock a c).waits = s.waits := by
  by_cases h : (s.recursive +
      (U32 - (if a then RECURSIVE_U else RECURSIVE_X))) % U32 = 0
  · simp [SuxLock.u_or_x_unlock, h]
  · simp [SuxLock.u_or_x_unlock, h]

theorem u_or_x_unlock_wr_cases (a c : Bool) (s : SuxLock) :
    (s.u_or_x_unlock a c).writer = 0 ∨
    (s.u_or_x_unlock a c).writer = s.writer := by
  by_cases h : (s.recursive +
      (U32 - (if a then RECURSIVE_U else RECURSIVE_X))) % U32 = 0
  · exact Or.inl (by simp [SuxLock.u_or_x_unlock, h])
  · exact Or.inr (by simp [SuxLock.u_or_x_unlock, h])

theorem s_lock_try_snd (ok : Bool) (s : SuxLock) :
    (s.s_lock_try ok).2 =
      if ok then { s with lock := s.lock.rd_lock } else s := by
  cases ok <;> simp [SuxLock.s_lock_try]

theorem s_lock_try_fst (ok : Bool) (s : SuxLock) :
    (s.s_lock_try ok).1 = ok := by
  cases ok <;> simp [SuxLock.s_lock_try]

theorem u_lock_try_snd (id : Nat) (f ok : Bool) (s : SuxLock) :
    (s.u_lock_try id f ok).2 =
      if s.writer = id then
        (if f then s else s.writer_recurse true)
      else if ok then
        { s with lock := s.lock.u_lock, recursive := RECURSIVE_U,
                 writer := if f then FOR_IO else id }
      else s := by
  unfold SuxLock.u_lock_try
  by_cases h : s.writer = id
  · simp only [if_pos h]
    cases f <;> simp
  · simp only [if_neg h]
    cases ok <;> simp

theorem u_lock_try_fst (id : Nat) (f ok : Bool) (s : SuxLock) :
    (s.u_lock_try id f ok).1 = if s.writer = id then !f else ok := by
  unfold SuxLock.u_lock_try
  by_cases h : s.writer = id
  · simp only [if_pos h]
    cases f <;> simp
  · simp only [if_neg h]
    cases ok <;> simp

theorem x_lock_try_snd (id : Nat) (ok : Bool) (s : SuxLock) :
    (s.x_lock_try id ok).2 =
      if s.writer = id then s.writer_recurse false
      else if ok then
        { s with lock := s.lock.wr_lock, recursive := RECURSIVE_X,
                 writer := id }
      else s := by
  unfold SuxLock.x_lock_try
  by_cases h : s.writer = id
  · simp only [if_pos h]
  · simp only [if_neg h]
    cases ok <;> simp

theorem x_lock_try_fst (id : Nat) (ok : Bool) (s : SuxLock) :
    (s.x_lock_try id ok).1 = if s.writer = id then true else ok := by
  unfold SuxLock.x_lock_try
  by_cases h : s.writer = id
  · simp only [if_pos h]
  · simp only [if_neg h]
    cases ok <;> simp

theorem x_lock_upgraded_snd (id : Nat) (s : SuxLock) :
    (s.x_lock_upgraded id).2 =
      if s.writer = id then
        (if s.recursive % (RECURSIVE_MAX + 1) ≠ 0 then s.writer_recurse false
         else { s with lock := s.lock.u_wr_upgrade,
                       recursive := s.recursive / RECURSIVE_U })
      else
        { s with lock := s.lock.wr_lock, recursive := RECURSIVE_X,
                 writer := id } := by
  unfold SuxLock.x_lock_upgraded
  by_cases h : s.writer = id
  · simp only [if_pos h]
    by_cases hx : s.recursive % (RECURSIVE_MAX + 1) ≠ 0 <;> simp [hx]
  · simp only [if_neg h]

theorem iterOp_zero (f : Nat → SuxLock → SuxLock) (s : SuxLock) :
    iterOp f 0 s = s := rfl

theorem iterOp_succ (f : Nat → SuxLock → SuxLock) (n : Nat) (s : SuxLock) :
    iterOp f (n + 1) s = f n (iterOp f n s) := rfl

/-- `j` blocking `u_lock` calls by thread `id` from the all-free state:
the first takes the underlying update lock, the rest are recursive, and
`recursive` accumulates `j * RECURSIVE_U` (for `j` within the recursion
bound).  The `waits` value depends on the wait oracle and is existential. -/
theorem u_lock_chain (id : Nat) (hid : id ≠ 0) (ws : Nat → Bool) (j : Nat) :
    1 ≤ j → j ≤ RECURSIVE_MAX →
    ∃ w : Nat,
      iterOp (fun i s => SuxLock.u_lock id (ws i) s) j SuxLock.init =
        { lock := Srw.u_lock Srw.init, writer := id,
          recursive := j * RECURSIVE_U, waits := w } := by
  induction j with
  | zero =>
    intro h1 _
    exact absurd h1 (by omega)
  | succ n ih =>
    intro _ h2
    by_cases hn : n = 0
    · subst hn
      rw [iterOp_succ, iterOp_zero]
      cases hws : ws 0
      · refine ⟨0, ?_⟩
        unfold SuxLock.u_lock
        rw [if_neg (fun h => hid h.symm)]
        rfl
      · refine ⟨1, ?_⟩
        unfold SuxLock.u_lock
        rw [if_neg (fun h => hid h.symm)]
        rfl
    · obtain ⟨w, hw⟩ := ih (by omega) (by omega)
      refine ⟨w, ?_⟩
      rw [iterOp_succ, hw]
      unfold SuxLock.u_lock
      rw [if_pos rfl, writer_recurse_true_eq]
      simp only [RECURSIVE_MAX_eq] at h2
      simp only [SuxLock.mk.injEq, RECURSIVE_U_eq, U32_eq, and_true,
        true_and]
      omega

/-- `j` blocking `x_lock` calls by thread `id` from the all-free state:
the first takes the underlying exclusive lock, the rest are recursive, and
`recursive` accumulates `j` (for `j` within the recursion bound). -/
theorem x_lock_chain (id : Nat) (hid : id ≠ 0) (ws : Nat → Bool) (j : Nat) :
    1 ≤ j → j ≤ RECURSIVE_MAX →
    ∃ w : Nat,
      iterOp (fun i s => SuxLock.x_lock id false (ws i) s) j SuxLock.init =
        { lock := Srw.wr_lock Srw.init, writer := id,
          recursive := j, waits := w } := by
  induction j with
  | zero =>
    intro h1 _
    exact absurd h1 (by omega)
  | succ n ih =>
    intro _ h2
    by_cases hn : n = 0
    · subst hn
      rw [iterOp_succ, iterOp_zero]
      cases hws : ws 0
      · refine ⟨0, ?_⟩
        unfold SuxLock.x_lock
        rw [if_neg (fun h => hid h.symm)]
        rfl
      · refine ⟨1, ?_⟩
        unfold SuxLock.x_lock
        rw [if_neg (fun h => hid h.symm)]
        rfl
    · obtain ⟨w, hw⟩ := ih (by omega) (by omega)
      refine ⟨w, ?_⟩
      rw [iterOp_succ, hw]
      unfold SuxLock.x_lock
      rw [if_pos rfl, writer_recurse_false_eq]
      simp only [RECURSIVE_MAX_eq] at h2
      simp only [SuxLock.mk.injEq, RECURSIVE_X_eq, U32_eq, and_true,
        true_and]
      omega

/-- `j` recursive `x_unlock` calls on a state holding X depth `k > j`:
each merely decrements `recursive`, leaving owner and underlying lock
untouched. -/
theorem x_unlock_chain (L : Srw) (id w0 k : Nat) (hk : k < U32) (j : Nat) :
    j < k →
    iterOp (fun _ s => SuxLock.x_unlock false s) j
        { lock := L, writer := id, recursive := k, waits := w0 } =
      { lock := L, writer := id, recursive := k - j, waits := w0 } := by
  induction j with
  | zero =>
    intro _
    rw [iterOp_zero, Nat.sub_zero]
  | succ n ih =>
    intro hj
    rw [iterOp_succ, ih (by omega)]
    unfold SuxLock.x_unlock
    rw [x_unlock_eq false _
      (by
        show k - n < U32
        omega)
      (by
        show RECURSIVE_X ≤ k - n
        rw [RECURSIVE_X_eq]
        omega)]
    rw [if_neg (by
      show ¬(k - n = RECURSIVE_X)
      rw [RECURSIVE_X_eq]
      omega)]
    simp only [SuxLock.mk.injEq, RECURSIVE_X_eq, and_true, true_and]
    omega

/-- The final `x_unlock` on a state holding X depth exactly 1: clears the
owner and releases the underlying exclusive lock. -/
theorem x_unlock_last (L : Srw) (id w0 : Nat) :
    SuxLock.x_unlock false
        { lock := L, writer := id, recursive := RECURSIVE_X, waits := w0 } =
      { lock := L.wr_unlock, writer := 0, recursive := 0, waits := w0 } := by
  unfold SuxLock.x_unlock
  rw [x_unlock_eq false _
    (by
      show RECURSIVE_X < U32
      decide)
    (by
      show RECURSIVE_X ≤ RECURSIVE_X
      decide)]
  rw [if_pos rfl]

/-! ### Claim theorems -/

/-- C7: with `x_depth = recursive mod 2^16` and `u_depth = recursive div 2^16`,
adding or subtracting `RECURSIVE_U` (in the `uint32_t` arithmetic the code
performs: addition of the step, respectively of its modular complement,
modulo `2^32`) changes `u_depth` by exactly one and leaves `x_depth`
unchanged, and adding or subtracting `RECURSIVE_X` changes `x_depth` by
exactly one and leaves `u_depth` unchanged, whenever the incremented depth
is strictly below `RECURSIVE_MAX` and the decremented depth is at least 1:
the packed counters never carry into each other. -/
theorem C7_packed_counters (r : Nat) (hr : r < U32) :
    (u_depth r < RECURSIVE_MAX →
      u_depth ((r + RECURSIVE_U) % U32) = u_depth r + 1 ∧
      x_depth ((r + RECURSIVE_U) % U32) = x_depth r) ∧
    (x_depth r < RECURSIVE_MAX →
      x_depth ((r + RECURSIVE_X) % U32) = x_depth r + 1 ∧
      u_depth ((r + RECURSIVE_X) % U32) = u_depth r) ∧
    (1 ≤ u_depth r →
      u_depth ((r + (U32 - RECURSIVE_U)) % U32) = u_depth r - 1 ∧
      x_depth ((r + (U32 - RECURSIVE_U)) % U32) = x_depth r) ∧
    (1 ≤ x_depth r →
      x_depth ((r + (U32 - RECURSIVE_X)) % U32) = x_depth r - 1 ∧
      u_depth ((r + (U32 - RECURSIVE_X)) % U32) = u_depth r) := by
  simp only [u_depth, x_depth, U32_eq, RECURSIVE_U_eq, RECURSIVE_X_eq,
    RECURSIVE_MAX_eq] at *
  refine ⟨fun h => ⟨?_, ?_⟩, fun h => ⟨?_, ?_⟩, fun h => ⟨?_, ?_⟩,
    fun h => ⟨?_, ?_⟩⟩ <;> omega

/-- Witness for C7 at `r = 65537` (`u_depth = 1`, `x_depth = 1`). -/
theorem C7_packed_counters_witness :
    (65537 : Nat) < U32 ∧
    ((u_depth 65537 < RECURSIVE_MAX →
      u_depth ((65537 + RECURSIVE_U) % U32) = u_depth 65537 + 1 ∧
      x_depth ((65537 + RECURSIVE_U) % U32) = x_depth 65537) ∧
    (x_depth 65537 < RECURSIVE_MAX →
      x_depth ((65537 + RECURSIVE_X) % U32) = x_depth 65537 + 1 ∧
      u_depth ((65537 + RECURSIVE_X) % U32) = u_depth 65537) ∧
    (1 ≤ u_depth 65537 →
      u_depth ((65537 + (U32 - RECURSIVE_U)) % U32) = u_depth 65537 - 1 ∧
      x_depth ((65537 + (U32 - RECURSIVE_U)) % U32) = x_depth 65537) ∧
    (1 ≤ x_depth 65537 →
      x_depth ((65537 + (U32 - RECURSIVE_X)) % U32) = x_depth 65537 - 1 ∧
      u_depth ((65537 + (U32 - RECURSIVE_X)) % U32) = u_depth 65537)) :=
  ⟨by decide, C7_packed_counters 65537 (by decide)⟩

/-- C9: the query predicates are mutually consistent: `have_u_not_x` and
`have_x` are never both true; `have_u_or_x` holds exactly when one of the
other two does; and all three are false whenever the calling thread is not
the value stored in `writer`. -/
theorem C9_query_consistency (id : Nat) (s : SuxLock) :
    ¬(s.have_u_not_x id = true ∧ s.have_x id = true) ∧
    (s.have_u_or_x id = true ↔
      (s.have_u_not_x id = true ∨ s.have_x id = true)) ∧
    (id ≠ s.writer →
      s.have_u_or_x id = false ∧ s.have_u_not_x id = false ∧
      s.have_x id = false) := by
  unfold SuxLock.have_u_not_x SuxLock.have_x SuxLock.have_u_or_x
  by_cases h : id = s.writer
  · simp only [h, beq_self_eq_true, Bool.true_and]
    cases hx : ((s.recursive / RECURSIVE_X) % (RECURSIVE_MAX + 1) == 0) <;>
      simp [hx, h]
  · simp [h]

/-- Witness for C9 at `id = 1` and a state owned by thread 2. -/
theorem C9_query_consistency_witness :
    let s : SuxLock :=
      { lock := Srw.init, writer := 2, recursive := RECURSIVE_U, waits := 0 }
    ¬(s.have_u_not_x 1 = true ∧ s.have_x 1 = true) ∧
    (s.have_u_or_x 1 = true ↔
      (s.have_u_not_x 1 = true ∨ s.have_x 1 = true)) ∧
    ((1 : Nat) ≠ s.writer →
      s.have_u_or_x 1 = false ∧ s.have_u_not_x 1 = false ∧
      s.have_x 1 = false) :=
  C9_query_consistency 1
    { lock := Srw.init, writer := 2, recursive := RECURSIVE_U, waits := 0 }

/-- C8: each blocking acquire path that reaches the underlying lock
(`s_lock`, non-recursive `u_lock`, non-recursive `x_lock`, `u_x_upgrade`)
increments `waits` by exactly one if and only if the underlying blocking
call reported that the acquisition had to wait (`waited = true`; the C++
call returns the negation, "acquired without waiting", and the code
increments on a false return), and leaves `waits` unchanged otherwise;
recursive acquisitions and the try variants never change `waits`. -/
theorem C8_waits_accounting (id : Nat) ( for_io waited ok : Bool)
    (s : SuxLock) (hw : s.waits + 1 < U32) :
    ((s.s_lock waited).waits = if waited then s.waits + 1 else s.waits) ∧
    (s.writer ≠ id →
      (s.u_lock id waited).waits =
        if waited then s.waits + 1 else s.waits) ∧
    (s.writer = id → (s.u_lock id waited).waits = s.waits) ∧
    (s.writer ≠ id →
      (s.x_lock id for_io waited).waits =
        if waited then s.waits + 1 else s.waits) ∧
    (s.writer = id → (s.x_lock id for_io waited).waits = s.waits) ∧
    ((s.u_x_upgrade waited).waits =
      if waited then s.waits + 1 else s.waits) ∧
    ((s.s_lock_try ok).2.waits = s.waits) ∧
    ((s.u_lock_try id for_io ok).2.waits = s.waits) ∧
    ((s.x_lock_try id ok).2.waits = s.waits) := by
  have hmod : (s.waits + 1) % U32 = s.waits + 1 := Nat.mod_eq_of_lt hw
  refine ⟨?_, fun h => ?_, fun h => ?_, fun h => ?_, fun h => ?_, ?_, ?_,
    ?_, ?_⟩
  · rw [s_lock_wt]
    cases waited <;> simp [hmod]
  · rw [u_lock_wt, if_neg (fun hh => h hh)]
    cases waited <;> simp [hmod]
  · rw [u_lock_wt, if_pos h]
  · rw [x_lock_wt, if_neg (fun hh => h hh)]
    cases waited <;> simp [hmod]
  · rw [x_lock_wt, if_pos h]
  · rw [u_x_upgrade_wt]
    cases waited <;> simp [hmod]
  · unfold SuxLock.s_lock_try
    cases ok <;> rfl
  · unfold SuxLock.u_lock_try SuxLock.writer_recurse
    split
    · split <;> rfl
    · split <;> rfl
  · unfold SuxLock.x_lock_try SuxLock.writer_recurse
    split
    · rfl
    · split <;> rfl

/-- Witness for C8 at a free lock, thread 1, a waiting blocking acquire and
a failing try. -/
theorem C8_waits_accounting_witness :
    SuxLock.init.waits + 1 < U32 ∧
    (((SuxLock.init.s_lock true).waits =
      if true then SuxLock.init.waits + 1 else SuxLock.init.waits) ∧
    (SuxLock.init.writer ≠ 1 →
      (SuxLock.init.u_lock 1 true).waits =
        if true then SuxLock.init.waits + 1 else SuxLock.init.waits) ∧
    (SuxLock.init.writer = 1 →
      (SuxLock.init.u_lock 1 true).waits = SuxLock.init.waits) ∧
    (SuxLock.init.writer ≠ 1 →
      (SuxLock.init.x_lock 1 false true).waits =
        if true then SuxLock.init.waits + 1 else SuxLock.init.waits) ∧
    (SuxLock.init.writer = 1 →
      (SuxLock.init.x_lock 1 false true).waits = SuxLock.init.waits) ∧
    ((SuxLock.init.u_x_upgrade true).waits =
      if true then SuxLock.init.waits + 1 else SuxLock.init.waits) ∧
    ((SuxLock.init.s_lock_try false).2.waits = SuxLock.init.waits) ∧
    ((SuxLock.init.u_lock_try 1 false false).2.waits =
      SuxLock.init.waits) ∧
    ((SuxLock.init.x_lock_try 1 false).2.waits = SuxLock.init.waits)) :=
  ⟨by decide, C8_waits_accounting 1 false true false SuxLock.init (by decide)⟩

/-- C2: `x_lock_upgraded()` has exactly three cases: (a) caller is the
recorded writer with nonzero `x_depth` — recursive X acquisition
(`x_depth` one more, `writer` and the underlying lock untouched), returns
`false`; (b) caller is the recorded writer with zero `x_depth` (pure U) —
invokes the underlying update-to-write upgrade and divides `recursive` by
`RECURSIVE_U`, moving the U depth into the X depth, returns `true`;
(c) caller is not the recorded writer — acquires the underlying exclusive
lock, sets `recursive = RECURSIVE_X` and `writer` to the caller, returns
`false`.  Case (a) carries the debug-asserted bound
`x_depth < RECURSIVE_MAX` under which the increment cannot overflow. -/
theorem C2_x_lock_upgraded_cases (id : Nat) (s : SuxLock)
    (hr : s.recursive < U32) :
    (s.writer = id → x_depth s.recursive ≠ 0 →
      x_depth s.recursive < RECURSIVE_MAX →
      (s.x_lock_upgraded id).1 = false ∧
      x_depth (s.x_lock_upgraded id).2.recursive = x_depth s.recursive + 1 ∧
      u_depth (s.x_lock_upgraded id).2.recursive = u_depth s.recursive ∧
      (s.x_lock_upgraded id).2.writer = s.writer ∧
      (s.x_lock_upgraded id).2.lock = s.lock) ∧
    (s.writer = id → x_depth s.recursive = 0 →
      (s.x_lock_upgraded id).1 = true ∧
      (s.x_lock_upgraded id).2.recursive = s.recursive / RECURSIVE_U ∧
      x_depth (s.x_lock_upgraded id).2.recursive = u_depth s.recursive ∧
      (s.x_lock_upgraded id).2.lock = s.lock.u_wr_upgrade ∧
      (s.x_lock_upgraded id).2.writer = s.writer) ∧
    (s.writer ≠ id →
      (s.x_lock_upgraded id).1 = false ∧
      (s.x_lock_upgraded id).2.recursive = RECURSIVE_X ∧
      (s.x_lock_upgraded id).2.writer = id ∧
      (s.x_lock_upgraded id).2.lock = s.lock.wr_lock) := by
  refine ⟨fun h hx hlt => ?_, fun h hx => ?_, fun h => ?_⟩
  · have hx1 : s.recursive % (RECURSIVE_MAX + 1) ≠ 0 := by
      simpa [x_depth, RECURSIVE_X] using hx
    have he : s.x_lock_upgraded id = (false, s.writer_recurse false) := by
      simp [SuxLock.x_lock_upgraded, h, hx1]
    rw [he]
    refine ⟨rfl, ?_, ?_, ?_, ?_⟩
    · show x_depth (s.writer_recurse false).recursive =
        x_depth s.recursive + 1
      rw [writer_recurse_rec]
      simp [x_depth, u_depth, RECURSIVE_X_eq, RECURSIVE_U_eq,
        RECURSIVE_MAX_eq, U32_eq] at hx hlt hr ⊢
      omega
    · show u_depth (s.writer_recurse false).recursive = u_depth s.recursive
      rw [writer_recurse_rec]
      simp [x_depth, u_depth, RECURSIVE_X_eq, RECURSIVE_U_eq,
        RECURSIVE_MAX_eq, U32_eq] at hx hlt hr ⊢
      omega
    · show (s.writer_recurse false).writer = s.writer
      exact writer_recurse_wr false s
    · show (s.writer_recurse false).lock = s.lock
      exact writer_recurse_lk false s
  · have hx1 : s.recursive % (RECURSIVE_MAX + 1) = 0 := by
      simpa [x_depth, RECURSIVE_X] using hx
    have he : s.x_lock_upgraded id =
        (true, { s with lock := s.lock.u_wr_upgrade,
                        recursive := s.recursive / RECURSIVE_U }) := by
      simp [SuxLock.x_lock_upgraded, h, hx1]
    rw [he]
    refine ⟨rfl, rfl, ?_, rfl, rfl⟩
    show x_depth (s.recursive / RECURSIVE_U) = u_depth s.recursive
    simp [x_depth, u_depth, RECURSIVE_X_eq]
  · have he : s.x_lock_upgraded id =
        (false, { s with lock := s.lock.wr_lock,
                         recursive := RECURSIVE_X, writer := id }) := by
      simp [SuxLock.x_lock_upgraded, h]
    rw [he]
    exact ⟨rfl, rfl, rfl, rfl⟩

/-- Witness for C2 at a state where thread 7 holds U depth 3 and X depth 0
(case (b) applies non-vacuously). -/
theorem C2_x_lock_upgraded_cases_witness :
    ({ lock := Srw.init, writer := 7, recursive := 3 * RECURSIVE_U,
       waits := 0 } : SuxLock).recursive < U32 ∧
    (let s : SuxLock :=
      { lock := Srw.init, writer := 7, recursive := 3 * RECURSIVE_U,
        waits := 0 }
    (s.writer = 7 → x_depth s.recursive ≠ 0 →
      x_depth s.recursive < RECURSIVE_MAX →
      (s.x_lock_upgraded 7).1 = false ∧
      x_depth (s.x_lock_upgraded 7).2.recursive = x_depth s.recursive + 1 ∧
      u_depth (s.x_lock_upgraded 7).2.recursive = u_depth s.recursive ∧
      (s.x_lock_upgraded 7).2.writer = s.writer ∧
      (s.x_lock_upgraded 7).2.lock = s.lock) ∧
    (s.writer = 7 → x_depth s.recursive = 0 →
      (s.x_lock_upgraded 7).1 = true ∧
      (s.x_lock_upgraded 7).2.recursive = s.recursive / RECURSIVE_U ∧
      x_depth (s.x_lock_upgraded 7).2.recursive = u_depth s.recursive ∧
      (s.x_lock_upgraded 7).2.lock = s.lock.u_wr_upgrade ∧
      (s.x_lock_upgraded 7).2.writer = s.writer) ∧
    (s.writer ≠ 7 →
      (s.x_lock_upgraded 7).1 = false ∧
      (s.x_lock_upgraded 7).2.recursive = RECURSIVE_X ∧
      (s.x_lock_upgraded 7).2.writer = 7 ∧
      (s.x_lock_upgraded 7).2.lock = s.lock.wr_lock)) :=
  ⟨by decide, C2_x_lock_upgraded_cases 7
    { lock := Srw.init, writer := 7, recursive := 3 * RECURSIVE_U,
      waits := 0 } (by decide)⟩

/-- C5: a `u_unlock` or `x_unlock` under the `ut_ad` ownership/depth
precondition decrements the corresponding depth by exactly one, leaves the
other mode's depth unchanged, and — exactly when the decremented
`recursive` is zero — clears `writer` to 0 and invokes the underlying
lock's matching release verb (`u_unlock` for U, `wr_unlock` for X); when
the decremented `recursive` is nonzero, `writer` and the underlying lock
are unchanged.  `waits` is never touched. -/
theorem C5_unlock_frame (id : Nat) (allow_readers claim_ownership : Bool)
    (s : SuxLock) (hr : s.recursive < U32)
    (hpre : s.u_or_x_unlock_pre id allow_readers claim_ownership) :
    (s.u_or_x_unlock allow_readers claim_ownership).recursive =
      s.recursive - (if allow_readers then RECURSIVE_U else RECURSIVE_X) ∧
    (if allow_readers then
      u_depth (s.u_or_x_unlock allow_readers claim_ownership).recursive =
        u_depth s.recursive - 1
    else
      x_depth (s.u_or_x_unlock allow_readers claim_ownership).recursive =
        x_depth s.recursive - 1) ∧
    (if allow_readers then
      x_depth (s.u_or_x_unlock allow_readers claim_ownership).recursive =
        x_depth s.recursive
    else
      u_depth (s.u_or_x_unlock allow_readers claim_ownership).recursive =
        u_depth s.recursive) ∧
    ((s.u_or_x_unlock allow_readers claim_ownership).recursive = 0 ↔
      s.recursive = (if allow_readers then RECURSIVE_U else RECURSIVE_X)) ∧
    (s.recursive = (if allow_readers then RECURSIVE_U else RECURSIVE_X) →
      (s.u_or_x_unlock allow_readers claim_ownership).writer = 0 ∧
      (s.u_or_x_unlock allow_readers claim_ownership).lock =
        (if allow_readers then s.lock.u_unlock else s.lock.wr_unlock)) ∧
    (s.recursive ≠ (if allow_readers then RECURSIVE_U else RECURSIVE_X) →
      (s.u_or_x_unlock allow_readers claim_ownership).writer = s.writer ∧
      (s.u_or_x_unlock allow_readers claim_ownership).lock = s.lock) ∧
    (s.u_or_x_unlock allow_readers claim_ownership).waits = s.waits := by
  have hd := hpre.2
  have hs : (if allow_readers then RECURSIVE_U else RECURSIVE_X) ≤
      s.recursive := by
    cases allow_readers
    · simp [x_depth, RECURSIVE_X_eq, RECURSIVE_MAX_eq] at hd ⊢
      omega
    · simp [u_depth, RECURSIVE_U_eq, RECURSIVE_MAX_eq] at hd ⊢
      omega
  have hrec : (s.u_or_x_unlock allow_readers claim_ownership).recursive =
      s.recursive - (if allow_readers then RECURSIVE_U else RECURSIVE_X) := by
    rw [u_or_x_unlock_eq allow_readers claim_ownership s hr hs]
    by_cases hz :
        s.recursive = (if allow_readers then RECURSIVE_U else RECURSIVE_X)
    · simp [hz]
    · simp [hz]
  refine ⟨hrec, ?_, ?_, ?_, fun h0 => ?_, fun h0 => ?_,
    u_or_x_unlock_wt allow_readers claim_ownership s⟩
  · rw [hrec]
    cases allow_readers
    · simp [x_depth, RECURSIVE_X_eq, RECURSIVE_MAX_eq] at hd ⊢
      omega
    · simp [u_depth, RECURSIVE_U_eq, RECURSIVE_MAX_eq, U32_eq] at hd hr ⊢
      omega
  · rw [hrec]
    cases allow_readers
    · simp [x_depth, u_depth, RECURSIVE_X_eq, RECURSIVE_U_eq,
        RECURSIVE_MAX_eq] at hd ⊢
      omega
    · simp [x_depth, u_depth, RECURSIVE_X_eq, RECURSIVE_U_eq,
        RECURSIVE_MAX_eq, U32_eq] at hd hr ⊢
      omega
  · rw [hrec]
    omega
  · rw [u_or_x_unlock_eq allow_readers claim_ownership s hr hs, if_pos h0]
    exact ⟨rfl, rfl⟩
  · rw [u_or_x_unlock_eq allow_readers claim_ownership s hr hs, if_neg h0]
    exact ⟨rfl, rfl⟩

/-- Witness for C5: thread 7 releasing one level of an X lock of depth 2. -/
theorem C5_unlock_frame_witness :
    (let s : SuxLock :=
      { lock := Srw.init, writer := 7, recursive := 2, waits := 0 }
    s.recursive < U32 ∧ SuxLock.u_or_x_unlock_pre 7 false false s ∧
    ((s.u_or_x_unlock false false).recursive =
      s.recursive - (if false then RECURSIVE_U else RECURSIVE_X) ∧
    (if (false : Bool) then
      u_depth (s.u_or_x_unlock false false).recursive =
        u_depth s.recursive - 1
    else
      x_depth (s.u_or_x_unlock false false).recursive =
        x_depth s.recursive - 1) ∧
    (if (false : Bool) then
      x_depth (s.u_or_x_unlock false false).recursive = x_depth s.recursive
    else
      u_depth (s.u_or_x_unlock false false).recursive =
        u_depth s.recursive) ∧
    ((s.u_or_x_unlock false false).recursive = 0 ↔
      s.recursive = (if false then RECURSIVE_U else RECURSIVE_X)) ∧
    (s.recursive = (if false then RECURSIVE_U else RECURSIVE_X) →
      (s.u_or_x_unlock false false).writer = 0 ∧
      (s.u_or_x_unlock false false).lock =
        (if false then s.lock.u_unlock else s.lock.wr_unlock)) ∧
    (s.recursive ≠ (if false then RECURSIVE_U else RECURSIVE_X) →
      (s.u_or_x_unlock false false).writer = s.writer ∧
      (s.u_or_x_unlock false false).lock = s.lock) ∧
    (s.u_or_x_unlock false false).waits = s.waits)) :=
  ⟨by decide,
   ⟨Or.inl rfl, by decide⟩,
   C5_unlock_frame 7 false false
     { lock := Srw.init, writer := 7, recursive := 2, waits := 0 }
     (by decide) ⟨Or.inl rfl, by decide⟩⟩

/-- C6: `u_lock_try(for_io)` — by the recorded writer: refused (`false`,
state untouched) when `for_io`, otherwise an immediate recursive success
(`u_depth` one more, nothing else changes, no underlying-lock call); by
any other thread: returns the underlying non-blocking update acquire's
outcome, installing `recursive = RECURSIVE_U` and the owner ( ` FOR_IO`
when `for_io`, else the caller) only on success, with all state unchanged
on failure. -/
theorem C6_u_lock_try_cases (id : Nat) ( for_io ok : Bool) (s : SuxLock)
    (hr : s.recursive < U32) :
    (s.writer = id → for_io = true →
      s.u_lock_try id for_io ok = (false, s)) ∧
    (s.writer = id → for_io = false →
      u_depth s.recursive < RECURSIVE_MAX →
      (s.u_lock_try id for_io ok).1 = true ∧
      u_depth (s.u_lock_try id for_io ok).2.recursive =
        u_depth s.recursive + 1 ∧
      x_depth (s.u_lock_try id for_io ok).2.recursive =
        x_depth s.recursive ∧
      (s.u_lock_try id for_io ok).2.writer = s.writer ∧
      (s.u_lock_try id for_io ok).2.lock = s.lock ∧
      (s.u_lock_try id for_io ok).2.waits = s.waits) ∧
    (s.writer ≠ id →
      (s.u_lock_try id for_io ok).1 = ok ∧
      (ok = true →
        (s.u_lock_try id for_io ok).2 =
          { s with lock := s.lock.u_lock, recursive := RECURSIVE_U,
                   writer := if for_io then FOR_IO else id }) ∧
      (ok = false → (s.u_lock_try id for_io ok).2 = s)) := by
  refine ⟨fun h hf => ?_, fun h hf hlt => ?_, fun h => ?_⟩
  · simp [SuxLock.u_lock_try, h, hf]
  · subst hf
    have he : s.u_lock_try id false ok = (true, s.writer_recurse true) := by
      simp [SuxLock.u_lock_try, h]
    rw [he]
    refine ⟨rfl, ?_, ?_, ?_, ?_, ?_⟩
    · show u_depth (s.writer_recurse true).recursive =
        u_depth s.recursive + 1
      rw [writer_recurse_rec]
      simp [x_depth, u_depth, RECURSIVE_X_eq, RECURSIVE_U_eq,
        RECURSIVE_MAX_eq, U32_eq] at hlt hr ⊢
      omega
    · show x_depth (s.writer_recurse true).recursive = x_depth s.recursive
      rw [writer_recurse_rec]
      simp [x_depth, u_depth, RECURSIVE_X_eq, RECURSIVE_U_eq,
        RECURSIVE_MAX_eq, U32_eq] at hlt hr ⊢
      omega
    · show (s.writer_recurse true).writer = s.writer
      exact writer_recurse_wr true s
    · show (s.writer_recurse true).lock = s.lock
      exact writer_recurse_lk true s
    · show (s.writer_recurse true).waits = s.waits
      exact writer_recurse_wt true s
  · refine ⟨?_, fun hok => ?_, fun hok => ?_⟩
    · subst_eqs
      simp [SuxLock.u_lock_try, h]
      cases ok <;> simp
    · subst hok
      simp [SuxLock.u_lock_try, h]
    · subst hok
      simp [SuxLock.u_lock_try, h]

/-- Witness for C6: thread 7 holding U depth 1 performs a non-`for_io`
recursive try-acquire. -/
theorem C6_u_lock_try_cases_witness :
    (let s : SuxLock :=
      { lock := Srw.init, writer := 7, recursive := RECURSIVE_U, waits := 0 }
    s.recursive < U32 ∧
    ((s.writer = 7 → (false : Bool) = true →
      s.u_lock_try 7 false true = (false, s)) ∧
    (s.writer = 7 → (false : Bool) = false →
      u_depth s.recursive < RECURSIVE_MAX →
      (s.u_lock_try 7 false true).1 = true ∧
      u_depth (s.u_lock_try 7 false true).2.recursive =
        u_depth s.recursive + 1 ∧
      x_depth (s.u_lock_try 7 false true).2.recursive =
        x_depth s.recursive ∧
      (s.u_lock_try 7 false true).2.writer = s.writer ∧
      (s.u_lock_try 7 false true).2.lock = s.lock ∧
      (s.u_lock_try 7 false true).2.waits = s.waits) ∧
    (s.writer ≠ 7 →
      (s.u_lock_try 7 false true).1 = true ∧
      ((true : Bool) = true →
        (s.u_lock_try 7 false true).2 =
          { s with lock := s.lock.u_lock, recursive := RECURSIVE_U,
                   writer := if false then FOR_IO else 7 }) ∧
      ((true : Bool) = false → (s.u_lock_try 7 false true).2 = s)))) :=
  ⟨by decide,
   C6_u_lock_try_cases 7 false true
     { lock := Srw.init, writer := 7, recursive := RECURSIVE_U, waits := 0 }
     (by decide)⟩

/-- C10: `x_lock(for_io = true)` by the recorded writer violates the
`ut_ad(!for_io)` debug assertion, and apart from the assertion the flag is
inert on that path: the call equals `x_lock(for_io = false)` by the owner
(`x_depth` one more under the asserted depth bound, `writer` and the
underlying lock untouched).  The ` FOR_IO` sentinel is installed only by
the non-recursive path of `x_lock(for_io = true)` and by a successful
non-recursive `u_lock_try(for_io = true)`: every other entry point maps a
state whose `writer` is not the sentinel, called by a real thread, to a
state whose `writer` is not the sentinel. -/
theorem C10_for_io_discipline (id : Nat) (a w ok ar cow : Bool)
    (s : SuxLock) (hr : s.recursive < U32) (hio : id ≠ FOR_IO)
    (hwio : s.writer ≠ FOR_IO) :
    (s.writer = id →
      s.x_lock id true w = s.x_lock id false w ∧
      ¬ s.x_lock_pre id true ∧
      (s.x_lock id true w).writer = s.writer ∧
      (s.x_lock id true w).lock = s.lock ∧
      (x_depth s.recursive < RECURSIVE_MAX →
        x_depth (s.x_lock id true w).recursive = x_depth s.recursive + 1)) ∧
    (s.u_lock id w).writer ≠ FOR_IO ∧
    (s.x_lock id false w).writer ≠ FOR_IO ∧
    (s.writer = id → (s.x_lock id true w).writer ≠ FOR_IO) ∧
    (s.u_lock_try id false ok).2.writer ≠ FOR_IO ∧
    (s.writer = id → (s.u_lock_try id true ok).2.writer ≠ FOR_IO) ∧
    (s.x_lock_try id ok).2.writer ≠ FOR_IO ∧
    (s.x_lock_upgraded id).2.writer ≠ FOR_IO ∧
    (s.s_lock w).writer = s.writer ∧
    (s.s_lock_try ok).2.writer = s.writer ∧
    (s.u_x_upgrade w).writer = s.writer ∧
    (s.writer_recurse a).writer = s.writer ∧
    (s.u_or_x_unlock ar cow).writer ≠ FOR_IO ∧
    s.s_unlock.writer = s.writer := by
  refine ⟨fun h => ?_, ?_, ?_, fun h => ?_, ?_, fun h => ?_, ?_, ?_,
    s_lock_wr w s, ?_, u_x_upgrade_wr w s, writer_recurse_wr a s, ?_, rfl⟩
  · have he : s.x_lock id true w = s.writer_recurse false := by
      simp [SuxLock.x_lock, h]
    have he2 : s.x_lock id false w = s.writer_recurse false := by
      simp [SuxLock.x_lock, h]
    refine ⟨he.trans he2.symm, by simp [SuxLock.x_lock_pre, h], ?_, ?_,
      fun hlt => ?_⟩
    · rw [he, writer_recurse_wr]
    · rw [he, writer_recurse_lk]
    · rw [he, writer_recurse_rec]
      simp [x_depth, RECURSIVE_X_eq, RECURSIVE_U_eq, RECURSIVE_MAX_eq,
        U32_eq] at hlt hr ⊢
      omega
  · rw [u_lock_wr]
    by_cases h : s.writer = id
    · rw [if_pos h]
      exact hwio
    · rw [if_neg h]
      exact hio
  · rw [x_lock_wr]
    by_cases h : s.writer = id
    · rw [if_pos h]
      exact hwio
    · rw [if_neg h]
      simpa using hio
  · rw [x_lock_wr, if_pos h]
    exact hwio
  · rw [u_lock_try_snd]
    by_cases h : s.writer = id
    · rw [if_pos h]
      simpa [writer_recurse_wr] using hwio
    · rw [if_neg h]
      cases ok
      · simpa using hwio
      · simpa using hio
  · rw [u_lock_try_snd, if_pos h]
    simpa using hwio
  · rw [x_lock_try_snd]
    by_cases h : s.writer = id
    · rw [if_pos h]
      simpa [writer_recurse_wr] using hwio
    · rw [if_neg h]
      cases ok
      · simpa using hwio
      · simpa using hio
  · rw [x_lock_upgraded_snd]
    by_cases h : s.writer = id
    · rw [if_pos h]
      by_cases hx : s.recursive % (RECURSIVE_MAX + 1) ≠ 0
      · rw [if_pos hx]
        simpa [writer_recurse_wr] using hwio
      · rw [if_neg hx]
        simpa using hwio
    · rw [if_neg h]
      simpa using hio
  · rw [s_lock_try_snd]
    cases ok <;> simp
  · rcases u_or_x_unlock_wr_cases ar cow s with h0 | h0
    · rw [h0]
      simp [ FOR_IO]
    · rw [h0]
      exact hwio

/-- Witness for C10: thread 7 already holding X depth 1 (so the owner
branch is exercised), with all oracle flags false. -/
theorem C10_for_io_discipline_witness :
    (let s : SuxLock :=
      { lock := Srw.init, writer := 7, recursive := RECURSIVE_X, waits := 0 }
    s.recursive < U32 ∧ (7 : Nat) ≠ FOR_IO ∧ s.writer ≠ FOR_IO ∧
    ((s.writer = 7 →
      s.x_lock 7 true false = s.x_lock 7 false false ∧
      ¬ s.x_lock_pre 7 true ∧
      (s.x_lock 7 true false).writer = s.writer ∧
      (s.x_lock 7 true false).lock = s.lock ∧
      (x_depth s.recursive < RECURSIVE_MAX →
        x_depth (s.x_lock 7 true false).recursive =
          x_depth s.recursive + 1)) ∧
    (s.u_lock 7 false).writer ≠ FOR_IO ∧
    (s.x_lock 7 false false).writer ≠ FOR_IO ∧
    (s.writer = 7 → (s.x_lock 7 true false).writer ≠ FOR_IO) ∧
    (s.u_lock_try 7 false false).2.writer ≠ FOR_IO ∧
    (s.writer = 7 → (s.u_lock_try 7 true false).2.writer ≠ FOR_IO) ∧
    (s.x_lock_try 7 false).2.writer ≠ FOR_IO ∧
    (s.x_lock_upgraded 7).2.writer ≠ FOR_IO ∧
    (s.s_lock false).writer = s.writer ∧
    (s.s_lock_try false).2.writer = s.writer ∧
    (s.u_x_upgrade false).writer = s.writer ∧
    (s.writer_recurse false).writer = s.writer ∧
    (s.u_or_x_unlock false false).writer ≠ FOR_IO ∧
    s.s_unlock.writer = s.writer)) :=
  ⟨by decide, by decide, by decide,
   C10_for_io_discipline 7 false false false false false
     { lock := Srw.init, writer := 7, recursive := RECURSIVE_X, waits := 0 }
     (by decide) (by decide) (by decide)⟩

/-- C3: the state invariant `recursive > 0 ⇔ writer != 0` is preserved by
every lock, try-lock, upgrade and unlock entry point of the public
interface, each taken under its `ut_ad` debug preconditions and called by
a real thread (`id ≠ 0`): acquire paths that install a nonzero
`recursive` also install a nonzero `writer`, and `u_or_x_unlock` clears
`writer` exactly when its decrement reaches zero. -/
theorem C3_invariant_preserved (id : Nat) ( for_io waited ok cow : Bool)
    (s : SuxLock) (hs : s.inv) (hr : s.recursive < U32) (hid : id ≠ 0) :
    (s.s_lock waited).inv ∧
    (s.s_lock_try ok).2.inv ∧
    s.s_unlock.inv ∧
    ((s.writer = id → u_depth s.recursive < RECURSIVE_MAX) →
      (s.u_lock id waited).inv) ∧
    ((s.writer = id →
        0 < x_depth s.recursive ∧ x_depth s.recursive < RECURSIVE_MAX) →
      (s.x_lock id for_io waited).inv) ∧
    ((0 < x_depth s.recursive ∧ x_depth s.recursive < RECURSIVE_MAX) →
      s.x_lock_recursive.inv) ∧
    ((0 < s.recursive ∧ x_depth s.recursive = 0) →
      (s.u_x_upgrade waited).inv) ∧
    ((s.writer = id → 0 < s.recursive ∧
        (x_depth s.recursive ≠ 0 → x_depth s.recursive < RECURSIVE_MAX)) →
      (s.x_lock_upgraded id).2.inv) ∧
    ((s.writer = id → for_io = false →
        u_depth s.recursive < RECURSIVE_MAX) →
      (s.u_lock_try id for_io ok).2.inv) ∧
    ((s.writer = id →
        0 < x_depth s.recursive ∧ x_depth s.recursive < RECURSIVE_MAX) →
      (s.x_lock_try id ok).2.inv) ∧
    (0 < u_depth s.recursive → (s.u_unlock cow).inv) ∧
    (0 < x_depth s.recursive → (s.x_unlock cow).inv) := by
  simp only [SuxLock.inv] at hs
  simp only [U32_eq] at hr
  refine ⟨?_, ?_, ?_, fun hpre => ?_, fun hpre => ?_, fun hpre => ?_,
    fun hpre => ?_, fun hpre => ?_, fun hpre => ?_, fun hpre => ?_,
    fun hd => ?_, fun hd => ?_⟩
  · simp only [SuxLock.inv, s_lock_rec, s_lock_wr]
    exact hs
  · rw [s_lock_try_snd]
    cases ok <;> simpa [SuxLock.inv] using hs
  · simpa [SuxLock.inv, SuxLock.s_unlock] using hs
  · simp only [SuxLock.inv, u_lock_rec, u_lock_wr]
    by_cases h : s.writer = id
    · have h2 := hpre h
      rw [if_pos h, if_pos h, h]
      simp only [u_depth, RECURSIVE_U_eq, RECURSIVE_MAX_eq, U32_eq] at h2 ⊢
      constructor
      · intro _
        exact hid
      · intro _
        omega
    · rw [if_neg h, if_neg h]
      constructor
      · intro _
        exact hid
      · intro _
        simp [RECURSIVE_U_eq]
  · simp only [SuxLock.inv, x_lock_rec, x_lock_wr]
    by_cases h : s.writer = id
    · have h2 := hpre h
      rw [if_pos h, if_pos h, h]
      simp only [x_depth, RECURSIVE_X_eq, RECURSIVE_MAX_eq, U32_eq] at h2 ⊢
      constructor
      · intro _
        exact hid
      · intro _
        omega
    · rw [if_neg h, if_neg h]
      constructor
      · intro _
        cases for_io
        · simpa using hid
        · simp [ FOR_IO]
      · intro _
        simp [RECURSIVE_X_eq]
  · have hw : s.writer ≠ 0 := by
      apply hs.mp
      simp only [x_depth, RECURSIVE_X_eq, RECURSIVE_MAX_eq] at hpre
      omega
    simp only [SuxLock.inv, SuxLock.x_lock_recursive,
      writer_recurse_rec_false, writer_recurse_wr]
    obtain ⟨h1, h2⟩ := hpre
    simp only [x_depth, RECURSIVE_X_eq, RECURSIVE_U_eq, RECURSIVE_MAX_eq,
      U32_eq] at h1 h2 ⊢
    constructor
    · intro _
      exact hw
    · intro _
      omega
  · have hw : s.writer ≠ 0 := hs.mp hpre.1
    simp only [SuxLock.inv, u_x_upgrade_rec, u_x_upgrade_wr]
    have := hpre.2
    simp only [x_depth, RECURSIVE_X_eq, RECURSIVE_MAX_eq] at this
    have h1 := hpre.1
    simp only [RECURSIVE_U_eq]
    constructor
    · intro _
      exact hw
    · intro _
      omega
  · rw [SuxLock.inv, x_lock_upgraded_snd]
    by_cases h : s.writer = id
    · obtain ⟨h1, h2⟩ := hpre h
      have hw : s.writer ≠ 0 := hs.mp h1
      rw [if_pos h]
      by_cases hx : s.recursive % (RECURSIVE_MAX + 1) ≠ 0
      · rw [if_pos hx]
        simp only [writer_recurse_rec_false, writer_recurse_wr]
        have h3 : x_depth s.recursive < RECURSIVE_MAX := by
          apply h2
          simpa [x_depth, RECURSIVE_X_eq] using hx
        simp only [x_depth, RECURSIVE_X_eq, RECURSIVE_U_eq,
          RECURSIVE_MAX_eq, U32_eq] at h3 hx ⊢
        constructor
        · intro _
          exact hw
        · intro _
          omega
      · rw [if_neg hx]
        simp only [ne_eq, not_not, RECURSIVE_MAX_eq] at hx
        constructor
        · intro _
          exact hw
        · intro _
          show 0 < s.recursive / RECURSIVE_U
          simp only [RECURSIVE_U_eq]
          omega
    · rw [if_neg h]
      constructor
      · intro _
        exact hid
      · intro _
        show 0 < RECURSIVE_X
        decide
  · rw [SuxLock.inv, u_lock_try_snd]
    by_cases h : s.writer = id
    · rw [if_pos h]
      cases hf : for_io
      · have h2 := hpre h hf
        rw [if_neg (by decide : ¬(false = true))]
        simp only [writer_recurse_rec_true, writer_recurse_wr]
        rw [h]
        simp only [u_depth, RECURSIVE_U_eq, RECURSIVE_MAX_eq, U32_eq]
          at h2 ⊢
        constructor
        · intro _
          exact hid
        · intro _
          omega
      · rw [if_pos rfl]
        exact hs
    · rw [if_neg h]
      cases ok
      · rw [if_neg (by decide : ¬(false = true))]
        exact hs
      · rw [if_pos rfl]
        constructor
        · intro _
          show (if for_io then FOR_IO else id) ≠ 0
          cases for_io
          · rw [if_neg (by decide : ¬(false = true))]
            exact hid
          · rw [if_pos rfl]
            exact FOR_IO_ne_zero
        · intro _
          show 0 < RECURSIVE_U
          decide
  · rw [SuxLock.inv, x_lock_try_snd]
    by_cases h : s.writer = id
    · obtain ⟨h1, h2⟩ := hpre h
      have hw : s.writer ≠ 0 := by
        apply hs.mp
        simp only [x_depth, RECURSIVE_X_eq, RECURSIVE_MAX_eq] at h1
        omega
      rw [if_pos h]
      simp only [writer_recurse_rec_false, writer_recurse_wr]
      simp only [x_depth, RECURSIVE_X_eq, RECURSIVE_U_eq, RECURSIVE_MAX_eq,
        U32_eq] at h1 h2 ⊢
      constructor
      · intro _
        exact hw
      · intro _
        omega
    · rw [if_neg h]
      cases ok
      · rw [if_neg (by decide : ¬(false = true))]
        exact hs
      · rw [if_pos rfl]
        constructor
        · intro _
          exact hid
        · intro _
          show 0 < RECURSIVE_X
          decide
  · have hd1 : RECURSIVE_U ≤ s.recursive := by
      simp only [u_depth, RECURSIVE_U_eq, RECURSIVE_MAX_eq] at hd
      simp only [RECURSIVE_U_eq]
      omega
    have hw : s.writer ≠ 0 := by
      apply hs.mp
      simp only [RECURSIVE_U_eq] at hd1
      omega
    unfold SuxLock.u_unlock
    rw [u_or_x_unlock_eq true cow s (by simpa [U32_eq] using hr)
      (by simpa using hd1)]
    by_cases hz : s.recursive = RECURSIVE_U
    · rw [if_pos (by simpa using hz)]
      simp [SuxLock.inv]
    · rw [if_neg (by simpa using hz)]
      simp only [SuxLock.inv]
      show 0 < s.recursive - RECURSIVE_U ↔ s.writer ≠ 0
      simp only [RECURSIVE_U_eq] at hd1 hz ⊢
      constructor
      · intro _
        exact hw
      · intro _
        omega
  · have hd1 : RECURSIVE_X ≤ s.recursive := by
      simp only [x_depth, RECURSIVE_X_eq, RECURSIVE_MAX_eq] at hd
      simp only [RECURSIVE_X_eq]
      omega
    have hw : s.writer ≠ 0 := by
      apply hs.mp
      simp only [RECURSIVE_X_eq] at hd1
      omega
    have hd2 : 0 < s.recursive % (RECURSIVE_MAX + 1) := by
      simpa [x_depth, RECURSIVE_X_eq] using hd
    unfold SuxLock.x_unlock
    rw [u_or_x_unlock_eq false cow s (by simpa [U32_eq] using hr)
      (by simpa using hd1)]
    by_cases hz : s.recursive = RECURSIVE_X
    · rw [if_pos (by simpa using hz)]
      simp [SuxLock.inv]
    · rw [if_neg (by simpa using hz)]
      simp only [SuxLock.inv]
      show 0 < s.recursive - RECURSIVE_X ↔ s.writer ≠ 0
      simp only [RECURSIVE_X_eq] at hd1 hz ⊢
      constructor
      · intro _
        exact hw
      · intro _
        omega

/-- Witness for C3: thread 7 holding U depth 1 and X depth 1
(`recursive = RECURSIVE_U + RECURSIVE_X`), all flags false. -/
theorem C3_invariant_preserved_witness :
    (let s : SuxLock :=
      { lock := Srw.init, writer := 7,
        recursive := RECURSIVE_U + RECURSIVE_X, waits := 0 }
    s.inv ∧ s.recursive < U32 ∧ (7 : Nat) ≠ 0 ∧
    ((s.s_lock false).inv ∧
    (s.s_lock_try false).2.inv ∧
    s.s_unlock.inv ∧
    ((s.writer = 7 → u_depth s.recursive < RECURSIVE_MAX) →
      (s.u_lock 7 false).inv) ∧
    ((s.writer = 7 →
        0 < x_depth s.recursive ∧ x_depth s.recursive < RECURSIVE_MAX) →
      (s.x_lock 7 false false).inv) ∧
    ((0 < x_depth s.recursive ∧ x_depth s.recursive < RECURSIVE_MAX) →
      s.x_lock_recursive.inv) ∧
    ((0 < s.recursive ∧ x_depth s.recursive = 0) →
      (s.u_x_upgrade false).inv) ∧
    ((s.writer = 7 → 0 < s.recursive ∧
        (x_depth s.recursive ≠ 0 → x_depth s.recursive < RECURSIVE_MAX)) →
      (s.x_lock_upgraded 7).2.inv) ∧
    ((s.writer = 7 → (false : Bool) = false →
        u_depth s.recursive < RECURSIVE_MAX) →
      (s.u_lock_try 7 false false).2.inv) ∧
    ((s.writer = 7 →
        0 < x_depth s.recursive ∧ x_depth s.recursive < RECURSIVE_MAX) →
      (s.x_lock_try 7 false).2.inv) ∧
    (0 < u_depth s.recursive → (s.u_unlock false).inv) ∧
    (0 < x_depth s.recursive → (s.x_unlock false).inv))) :=
  ⟨⟨fun _ => by decide, fun _ => by decide⟩, by decide, by decide,
   C3_invariant_preserved 7 false false false false
     { lock := Srw.init, writer := 7,
       recursive := RECURSIVE_U + RECURSIVE_X, waits := 0 }
     ⟨fun _ => by decide, fun _ => by decide⟩ (by decide) (by decide)⟩

/-- C1: from the Free state, `k` `u_lock()` calls by one thread
(1 ≤ k ≤ 65535), one `u_x_upgrade()`, then `k` `x_unlock()` calls return
the lock to Free — `recursive = 0`, `writer = 0` — and the underlying
exclusive hold is released exactly once, at the final `x_unlock` (the
`wrUnlocks` counter is still 0 after `k - 1` unlocks and 1 at the end;
the update lock was taken once and upgraded once, never released by
`u_unlock`).  The wait oracles `ws`/`uw` only affect the `waits` field,
which is existential.  The spec's concrete scenario is the `k = 2`
instantiation (see the witness). -/
theorem C1_u_upgrade_x_roundtrip (id k : Nat) (ws : Nat → Bool)
    (uw : Bool) (hid : id ≠ 0) (hk1 : 1 ≤ k) (hk2 : k ≤ RECURSIVE_MAX) :
    ∃ w : Nat,
      iterOp (fun _ s => SuxLock.x_unlock false s) k
          (SuxLock.u_x_upgrade uw
            (iterOp (fun i s => SuxLock.u_lock id (ws i) s) k
              SuxLock.init)) =
        { lock := { hold := SrwHold.free, rdLocks := 0, rdUnlocks := 0,
                    uLocks := 1, uUnlocks := 0, wrLocks := 0,
                    wrUnlocks := 1, upgrades := 1 },
          writer := 0, recursive := 0, waits := w } ∧
      (iterOp (fun _ s => SuxLock.x_unlock false s) (k - 1)
          (SuxLock.u_x_upgrade uw
            (iterOp (fun i s => SuxLock.u_lock id (ws i) s) k
              SuxLock.init))).lock.wrUnlocks = 0 := by
  obtain ⟨m, rfl⟩ : ∃ m, k = m + 1 := ⟨k - 1, by omega⟩
  obtain ⟨w, hw⟩ := u_lock_chain id hid ws (m + 1) hk1 hk2
  have hm : m + 1 < U32 := by
    simp only [RECURSIVE_MAX_eq] at hk2
    simp only [U32_eq]
    omega
  have hup : SuxLock.u_x_upgrade uw
      { lock := Srw.u_lock Srw.init, writer := id,
        recursive := (m + 1) * RECURSIVE_U, waits := w } =
      { lock := Srw.u_wr_upgrade (Srw.u_lock Srw.init), writer := id,
        recursive := m + 1,
        waits := if uw then (w + 1) % U32 else w } := by
    cases uw
    · simp [SuxLock.u_x_upgrade, RECURSIVE_U_eq, U32_eq]
    · simp [SuxLock.u_x_upgrade, RECURSIVE_U_eq, U32_eq]
  rw [hw, hup, Nat.add_sub_cancel]
  refine ⟨if uw then (w + 1) % U32 else w, ?_, ?_⟩
  · rw [iterOp_succ,
      x_unlock_chain (Srw.u_wr_upgrade (Srw.u_lock Srw.init)) id
        (if uw then (w + 1) % U32 else w) (m + 1) hm m (by omega)]
    rw [show m + 1 - m = RECURSIVE_X by
      rw [RECURSIVE_X_eq]
      omega]
    rw [x_unlock_last]
    rfl
  · rw [x_unlock_chain (Srw.u_wr_upgrade (Srw.u_lock Srw.init)) id
      (if uw then (w + 1) % U32 else w) (m + 1) hm m (by omega)]
    rfl

/-- Witness for C1: the spec's concrete scenario — thread 1 takes U twice,
upgrades, and unlocks X twice, with no blocking waits. -/
theorem C1_u_upgrade_x_roundtrip_witness :
    (1 : Nat) ≠ 0 ∧ 1 ≤ 2 ∧ 2 ≤ RECURSIVE_MAX ∧
    (∃ w : Nat,
      iterOp (fun _ s => SuxLock.x_unlock false s) 2
          (SuxLock.u_x_upgrade false
            (iterOp (fun i s => SuxLock.u_lock 1 ((fun _ => false) i) s) 2
              SuxLock.init)) =
        { lock := { hold := SrwHold.free, rdLocks := 0, rdUnlocks := 0,
                    uLocks := 1, uUnlocks := 0, wrLocks := 0,
                    wrUnlocks := 1, upgrades := 1 },
          writer := 0, recursive := 0, waits := w } ∧
      (iterOp (fun _ s => SuxLock.x_unlock false s) (2 - 1)
          (SuxLock.u_x_upgrade false
            (iterOp (fun i s => SuxLock.u_lock 1 ((fun _ => false) i) s) 2
              SuxLock.init))).lock.wrUnlocks = 0) :=
  ⟨by decide, by decide, by decide,
   C1_u_upgrade_x_roundtrip 1 2 (fun _ => false) false (by decide)
     (by decide) (by decide)⟩

/-- C4: from the Free state, `n` `x_lock()` calls by one thread
(1 ≤ n ≤ 65535; the first non-recursive, the rest recursive) followed by
`n` `x_unlock()` calls return the lock to Free — `recursive = 0`,
`writer = 0` — with the underlying exclusive lock acquired exactly once
(`wrLocks = 1`) and released exactly once, at the final unlock
(`wrUnlocks` is still 0 after `n - 1` unlocks and 1 at the end). -/
theorem C4_x_recursion_roundtrip (id n : Nat) (ws : Nat → Bool)
    (hid : id ≠ 0) (hn1 : 1 ≤ n) (hn2 : n ≤ RECURSIVE_MAX) :
    ∃ w : Nat,
      iterOp (fun _ s => SuxLock.x_unlock false s) n
          (iterOp (fun i s => SuxLock.x_lock id false (ws i) s) n
            SuxLock.init) =
        { lock := { hold := SrwHold.free, rdLocks := 0, rdUnlocks := 0,
                    uLocks := 0, uUnlocks := 0, wrLocks := 1,
                    wrUnlocks := 1, upgrades := 0 },
          writer := 0, recursive := 0, waits := w } ∧
      (iterOp (fun _ s => SuxLock.x_unlock false s) (n - 1)
          (iterOp (fun i s => SuxLock.x_lock id false (ws i) s) n
            SuxLock.init)).lock.wrUnlocks = 0 := by
  obtain ⟨m, rfl⟩ : ∃ m, n = m + 1 := ⟨n - 1, by omega⟩
  obtain ⟨w, hw⟩ := x_lock_chain id hid ws (m + 1) hn1 hn2
  have hm : m + 1 < U32 := by
    simp only [RECURSIVE_MAX_eq] at hn2
    simp only [U32_eq]
    omega
  rw [hw, Nat.add_sub_cancel]
  refine ⟨w, ?_, ?_⟩
  · rw [iterOp_succ,
      x_unlock_chain (Srw.wr_lock Srw.init) id w (m + 1) hm m (by omega)]
    rw [show m + 1 - m = RECURSIVE_X by
      rw [RECURSIVE_X_eq]
      omega]
    rw [x_unlock_last]
    rfl
  · rw [x_unlock_chain (Srw.wr_lock Srw.init) id w (m + 1) hm m
      (by omega)]
    rfl

/-- Witness for C4 at `n = 2`: thread 1 takes X twice and unlocks twice,
with no blocking waits. -/
theorem C4_x_recursion_roundtrip_witness :
    (1 : Nat) ≠ 0 ∧ 1 ≤ 2 ∧ 2 ≤ RECURSIVE_MAX ∧
    (∃ w : Nat,
      iterOp (fun _ s => SuxLock.x_unlock false s) 2
          (iterOp (fun i s => SuxLock.x_lock 1 false ((fun _ => false) i) s)
            2 SuxLock.init) =
        { lock := { hold := SrwHold.free, rdLocks := 0, rdUnlocks := 0,
                    uLocks := 0, uUnlocks := 0, wrLocks := 1,
                    wrUnlocks := 1, upgrades := 0 },
          writer := 0, recursive := 0, waits := w } ∧
      (iterOp (fun _ s => SuxLock.x_unlock false s) (2 - 1)
          (iterOp (fun i s => SuxLock.x_lock 1 false ((fun _ => false) i) s)
            2 SuxLock.init)).lock.wrUnlocks = 0) :=
  ⟨by decide, by decide, by decide,
   C4_x_recursion_roundtrip 1 2 (fun _ => false) (by decide) (by decide)
     (by decide)⟩

end Sux
